import Mathlib

/-!
Shallow embedding of the live-performance orchestration core of the
AI-theater repository, and proofs checking the claims of its
specification against the code.

Conventions of the embedding:
* Python lists/dicts become Lean `List`s / association lists.
* Python strings become Lean `String`s; `str.strip()` is `String.trim`,
  `pat in s` is `containsStr s pat` (substring occurrence).
* Python floats (backoff waits) are modelled by exact rationals `ℚ`.
* A Python function that can raise becomes `Except String _`.
* Loops that may not terminate become a step function plus a fuel-indexed
  iterate; ghost fields (`gatewayCalls`, `contextLog`, `speechLog`) record
  observations of the execution and are written by the step function only.
-/

namespace Theater

/-- `startsWithL l pat`: the character list `l` starts with `pat`. -/
def startsWithL : List Char → List Char → Bool
  | _, [] => true
  | [], _ :: _ => false
  | c :: cs, p :: ps => c == p && startsWithL cs ps

/-- `occursInL l pat`: `pat` occurs as a contiguous run inside `l`. -/
def occursInL : List Char → List Char → Bool
  | [], pat => startsWithL [] pat
  | c :: rest, pat => startsWithL (c :: rest) pat || occursInL rest pat

/-- Substring occurrence test, modelling Python's `pat in s`. -/
def containsStr (s pat : String) : Bool :=
  occursInL s.data pat.data

/-- Python `str.strip()`: whitespace removed from both ends (Lean's
`Char.isWhitespace` covers the ASCII whitespace the inputs here use). -/
def pyStrip (s : String) : String :=
  String.mk
    (((s.data.dropWhile Char.isWhitespace).reverse.dropWhile
      Char.isWhitespace).reverse)

/-- Python `str.lower()` (ASCII lowering via `Char.toLower`). -/
def lowerStr (s : String) : String :=
  String.mk (s.data.map Char.toLower)

/-- Python `l[-n:]` for `n` the given limit: the whole list when the limit is
`0`, otherwise the last `n` elements. -/
def pyTakeLast (l : List String) (n : Nat) : List String :=
  if n = 0 then l else l.drop (l.length - n)

/-!
### `core/state/performance_blackboard.py`

The class `PerformanceBlackboard` (the whole file, lines 6–37) defines
exactly the methods listed in `performanceBlackboardAttrs` below.  It has
no dialogue log and no `add_dialogue` / `get_recent_dialogue` /
`get_recent_dialogue_struct` / `remove_last_dialogue` methods, although
`chat_server.py` (lines 244, 608, 644, 736, 780) and the repository's own
test `tests/test_blackboard_integration.py` call them; in Python such a
call raises `AttributeError`.
-/

/-- State of `PerformanceBlackboard`: `_facts` is a list of
`{fact, category}` records, `_locked_facts` a set of canon facts. -/
structure PerformanceBlackboard where
  facts : List (String × String)
  lockedFacts : List String
  deriving Repr, DecidableEq

/-- `PerformanceBlackboard.__init__`. -/
def PerformanceBlackboard.init : PerformanceBlackboard :=
  { facts := [], lockedFacts := [] }

/-- `add_fact`: appends `{fact, category}` unless the exact fact text is
already present (dedup by exact text). -/
def PerformanceBlackboard.add_fact (bb : PerformanceBlackboard)
    (fact category : String) : PerformanceBlackboard :=
  if (bb.facts.map Prod.fst).contains fact then bb
  else { bb with facts := bb.facts ++ [(fact, category)] }

/-- `get_all_facts`: numbered rendering of the fact ledger. -/
def PerformanceBlackboard.get_all_facts (bb : PerformanceBlackboard) : String :=
  if bb.facts = [] then "目前尚无记录的全局事实。"
  else
    String.intercalate "\n" <|
      bb.facts.enum.map fun p =>
        toString (p.1 + 1) ++ ". [" ++ p.2.2.toUpper ++ "] " ++ p.2.1

/-- `clear`: resets facts and locked facts. -/
def PerformanceBlackboard.clear (_bb : PerformanceBlackboard) :
    PerformanceBlackboard :=
  { facts := [], lockedFacts := [] }

/-- The attribute (method) names the class body of `PerformanceBlackboard`
defines, besides `__init__`, read off `performance_blackboard.py` lines
15, 24 and 34. -/
def performanceBlackboardAttrs : List String :=
  ["add_fact", "get_all_facts", "clear"]

/-- Python attribute lookup on a `PerformanceBlackboard` instance: `some`
for a defined method, `none` for an `AttributeError`. -/
def pbLookupAttr (name : String) : Option String :=
  if performanceBlackboardAttrs.contains name then some name else none

/-- The dialogue-log method names invoked on `self.blackboard` by the
orchestrator `chat_server.py` (lines 244, 608, 644, 736, 780). -/
def orchestratorDialogueCalls : List String :=
  ["get_recent_dialogue_struct", "remove_last_dialogue", "add_dialogue"]

/-!
### `core/actor/memory_bank.py`
-/

/-- `MemoryBank`: `_secrets` (dedup, permanent), `_short_term` (FIFO,
capacity `_max_short_term = 10`), `_long_term` (unbounded append). -/
structure MemoryBank where
  actorName : String
  secrets : List String
  shortTerm : List String
  longTerm : List String
  deriving Repr, DecidableEq

/-- `MemoryBank.__init__(actor_name, initial_memories)`. -/
def MemoryBank.init (name : String) (initialMemories : List String) :
    MemoryBank :=
  { actorName := name, secrets := initialMemories,
    shortTerm := [], longTerm := [] }

/-- `add_short_term`: append, then `pop(0)` once the length exceeds the
capacity 10. -/
def MemoryBank.add_short_term (mb : MemoryBank) (content : String) :
    MemoryBank :=
  let st := mb.shortTerm ++ [content]
  { mb with shortTerm := if 10 < st.length then st.drop 1 else st }

/-- `add`: alias for `add_short_term`. -/
def MemoryBank.add (mb : MemoryBank) (content : String) : MemoryBank :=
  mb.add_short_term content

/-- `add_long_term`: unbounded append. -/
def MemoryBank.add_long_term (mb : MemoryBank) (content : String) :
    MemoryBank :=
  { mb with longTerm := mb.longTerm ++ [content] }

/-- `add_secret`: dedup on exact text. -/
def MemoryBank.add_secret (mb : MemoryBank) (secret : String) : MemoryBank :=
  if mb.secrets.contains secret then mb
  else { mb with secrets := mb.secrets ++ [secret] }

/-- `get_recent(limit)`: the last `limit` short-term entries rendered as
`- entry` lines, or a placeholder when empty. -/
def MemoryBank.get_recent (mb : MemoryBank) (limit : Nat) : String :=
  let recent := pyTakeLast mb.shortTerm limit
  if recent = [] then "暂无近期记忆。"
  else String.intercalate "\n" (recent.map fun m => "- " ++ m)

/-!
### `core/actor/crew_actor.py`

`CrewActor.perform` runs the CrewAI agent and extracts the decision dict.
We model the outcome of `crew.kickoff()` abstractly and translate the
extraction and fallback branches (lines 142–159).
-/

/-- The Python value found under the `willingness` key of a decision dict:
an `int`, or some non-`int` value (the `isinstance(willingness, int)` guard
in the orchestrator distinguishes the two). -/
inductive WillVal where
  | intVal (n : Int)
  | nonInt
  deriving Repr, DecidableEq

/-- The `ActorAction` pydantic schema of `crew_actor.py` (all fields
present). -/
structure ActorAction where
  thought : String
  willingness : Int
  content : String
  action : String
  isFinished : Bool
  deriving Repr, DecidableEq

/-- A decision dict as returned by `CrewActor.perform`: each key may be
missing (`none`), mirroring the `act_data.get(key, default)` reads of the
orchestrator. -/
structure ActData where
  thought : Option String
  willingness : Option WillVal
  content : Option String
  action : Option String
  isFinished : Option Bool
  deriving Repr, DecidableEq

/-- The dict produced by a full `ActorAction` (`model_dump()`: every key
present, willingness an `int`). -/
def ActData.ofAction (a : ActorAction) : ActData :=
  { thought := some a.thought, willingness := some (.intVal a.willingness),
    content := some a.content, action := some a.action,
    isFinished := some a.isFinished }

/-- Possible outcomes of `crew.kickoff()` as observed by `perform`:
a pydantic result, a raw json dict matching the schema, a non-JSON string
result, or a raised exception. -/
inductive KickoffOutcome where
  | pydanticOut (a : ActorAction)
  | jsonDictOut (a : ActorAction)
  | rawOut (raw : String)
  | raiseErr (msg : String)
  deriving Repr, DecidableEq

/-- `CrewActor.perform` (lines 142–159): returns the structured decision
when parsing succeeds, and otherwise the safe default
`{content: "[PASS]", willingness: 0, ...}` — it never propagates an
exception. -/
def CrewActor.perform (out : KickoffOutcome) : ActData :=
  match out with
  | .pydanticOut a => ActData.ofAction a
  | .jsonDictOut a => ActData.ofAction a
  | .rawOut raw =>
      { thought := some ("Error: Model failed to output JSON. Raw: "
          ++ String.mk (raw.data.take 200)),
        willingness := some (.intVal 0), content := some "[PASS]",
        action := some "", isFinished := some false }
  | .raiseErr msg =>
      { thought := some ("Error: " ++ msg),
        willingness := some (.intVal 0), content := some "[PASS]",
        action := some "stays silent (error)", isFinished := some false }

/-!
### `core/llm_provider.py`, `LLMProvider.safe_completion` (lines 25–91)

The attempt loop is driven by an oracle giving the outcome of each of the
at most 5 API calls.  A raised exception becomes `Except.error`.
-/

/-- Outcome of one `chat.completions.create` call inside
`safe_completion`. -/
inductive SCOutcome where
  | success (text : String)
  | rateLimitErr
  | connErr
  | apiErr (msg : String)
  | genericErr (msg : String)
  deriving Repr, DecidableEq

/-- The waits `safe_completion` sleeps between attempts: rate limit waits
`2 * 2^attempt + jitter`, connection errors `2 * 2^attempt` (no jitter),
other API errors `2`, generic retried errors `1` (lines 59, 66, 75, 89). -/
def scWait (attempt : Nat) (jitter : ℚ) : SCOutcome → ℚ
  | .rateLimitErr => 2 * 2 ^ attempt + jitter
  | .connErr => 2 * 2 ^ attempt
  | .apiErr _ => 2
  | _ => 1

/-- The `for attempt in range(5)` loop of `safe_completion`, with the
remaining iteration count as fuel (`attempt + remaining = 5`).  Returns the
result (or the raised exception) together with the list of sleeps
performed. -/
def scLoop (attempts : Nat → SCOutcome) (jitters : Nat → ℚ)
    (attempt : Nat) : Nat → Except String String × List ℚ
  | 0 => (.error "Max retries exceeded", [])
  | r + 1 =>
    match attempts attempt with
    | .success t => (.ok t, [])
    | .rateLimitErr =>
        let w := scWait attempt (jitters attempt) .rateLimitErr
        let rest := scLoop attempts jitters (attempt + 1) r
        (rest.1, w :: rest.2)
    | .connErr =>
        let w := scWait attempt (jitters attempt) .connErr
        let rest := scLoop attempts jitters (attempt + 1) r
        (rest.1, w :: rest.2)
    | .apiErr m =>
        if r = 0 then (.error m, [])
        else
          let rest := scLoop attempts jitters (attempt + 1) r
          (rest.1, (2 : ℚ) :: rest.2)
    | .genericErr m =>
        if containsStr m "400" || containsStr (lowerStr m) "invalid" then
          (.error m, [])
        else if r = 0 then (.error m, [])
        else
          let rest := scLoop attempts jitters (attempt + 1) r
          (rest.1, (1 : ℚ) :: rest.2)

/-- `safe_completion`: filters out messages with blank content, returns the
error string on an empty context, then runs the 5-attempt loop; after the
loop it raises `Exception("Max retries exceeded")`. -/
def safe_completion (messages : List (String × String))
    (attempts : Nat → SCOutcome) (jitters : Nat → ℚ) :
    Except String String × List ℚ :=
  let validMessages := messages.filter fun m => pyStrip m.2 ≠ ""
  if validMessages = [] then (.ok "[SYSTEM ERROR: Empty Message Context]", [])
  else scLoop attempts jitters 0 5

/-!
### `additional/consciousness.py`, `ConsciousnessProbe._query` (lines 30–107)

Retry loop with smart backoff: exponential wait plus jitter, raised to a
suggested wait parsed from the error text (`retry in Xs` / `retry after X`,
case-insensitive) plus a 1.5 s buffer, floored at 10 s on quota-class
errors with no explicit timing.  Waits are modelled as exact rationals.
-/

/-- Numeric value of a run of digit characters. -/
def digitsToNat (l : List Char) : Nat :=
  l.foldl (fun acc c => acc * 10 + (c.toNat - '0'.toNat)) 0

/-- Parse `\d+(\.\d+)?` at the start of the character list: integer part,
fraction digits value, fraction length, and the remaining text. -/
def parsePartsAt (l : List Char) : Option ((Nat × Nat × Nat) × List Char) :=
  let ds := l.takeWhile Char.isDigit
  if ds.isEmpty then none
  else
    let rest := l.drop ds.length
    match rest with
    | '.' :: rest2 =>
      let fs := rest2.takeWhile Char.isDigit
      if fs.isEmpty then some ((digitsToNat ds, 0, 0), rest)
      else some ((digitsToNat ds, digitsToNat fs, fs.length),
        rest2.drop fs.length)
    | _ => some ((digitsToNat ds, 0, 0), rest)

/-- The rational a parsed `intPart.fraction` denotes. -/
def ratOfParts (p : Nat × Nat × Nat) : ℚ :=
  (p.1 : ℚ) + (p.2.1 : ℚ) / (10 : ℚ) ^ p.2.2

/-- Search anywhere in the text for `tag` immediately followed by a
number, optionally requiring a trailing `s` (the regex searches of
`_query`, lines 87–89). -/
def searchTagNum (tag : List Char) (requireS : Bool) :
    List Char → Option (Nat × Nat × Nat)
  | [] => none
  | c :: rest =>
    match
      (if startsWithL (c :: rest) tag then
        match parsePartsAt ((c :: rest).drop tag.length) with
        | some (parts, after) =>
            if requireS then
              (if startsWithL after ['s'] then some parts else none)
            else some parts
        | none => none
      else none) with
    | some v => some v
    | none => searchTagNum tag requireS rest

/-- The error-text scan of `_query` (lines 87–92): first
`retry in (\d+(\.\d+)?)s`, then `retry after (\d+(\.\d+)?)`, both
case-insensitive (searched on the lowercased text). -/
def scanSuggestedParts (err : String) : Option (Nat × Nat × Nat) :=
  let lower := (lowerStr err).data
  match searchTagNum "retry in ".data true lower with
  | some p => some p
  | none => searchTagNum "retry after ".data false lower

/-- The suggested wait (seconds) found in the error text, if any. -/
def scanSuggestedWait (err : String) : Option ℚ :=
  (scanSuggestedParts err).map ratOfParts

/-- Quota-class test on the lowercased error text (line 98). -/
def isQuotaText (errLower : String) : Bool :=
  containsStr errLower "429" || containsStr errLower "quota" ||
    containsStr errLower "resource_exhausted"

/-- Rate-limit/connection-class test on a failed benchmark's error message
(line 66), deciding whether `_query` raises and retries. -/
def rlClass (m : String) : Bool :=
  let lower := lowerStr m
  containsStr lower "429" || containsStr lower "too many requests" ||
    containsStr lower "closed connection" || containsStr lower "limitation" ||
    containsStr lower "quota" || containsStr lower "resource_exhausted"

/-- The wait computed before retrying after a failed attempt
(lines 82–100): `2 * 2^attempt + jitter`, raised to `suggested + 1.5` when
the error text carries a suggested wait, else floored at `10` on
quota-class errors. -/
def smartBackoffWait (attempt : Nat) (jitter : ℚ) (errText : String) : ℚ :=
  let waitDefault := 2 * 2 ^ attempt + jitter
  match scanSuggestedWait errText with
  | some suggested => max waitDefault (suggested + 3 / 2)
  | none =>
      if isQuotaText (lowerStr errText) then max waitDefault 10
      else waitDefault

/-- Outcome of one `run_benchmark` call inside `_query`: success, a failed
result carrying an error message, or a raised exception. -/
inductive BenchResult where
  | ok (content : String)
  | fail (errMessage : String)
  | raisedExc (msg : String)
  deriving Repr, DecidableEq

/-- Observation of a `_query` run: final result string, the sleeps
performed between attempts, and the number of `run_benchmark` calls. -/
structure QueryTrace where
  result : String
  sleeps : List ℚ
  attemptsMade : Nat
  deriving Repr, DecidableEq

/-- The `for attempt in range(5)` loop of `_query`, fuel = remaining
iterations (`attempt + fuel = 5`).  A rate-limit-class failed result is
re-raised as `RateLimit/ConnectionError: msg` (line 67) and handled by the
retry arm; a non-retryable failure returns `Error: msg` at once; on the
last attempt the handler returns `Error: Max retries exceeded...`
(line 105); an exhausted loop returns `Error: Unknown failure`
(line 107). -/
def queryGo (oracle : Nat → BenchResult) (jitters : Nat → ℚ)
    (attempt : Nat) : Nat → QueryTrace
  | 0 => ⟨"Error: Unknown failure", [], 0⟩
  | r + 1 =>
    match oracle attempt with
    | .ok c => ⟨c, [], 1⟩
    | .fail m =>
        if rlClass m then
          if r = 0 then
            ⟨"Error: Max retries exceeded. Last error: RateLimit/ConnectionError: "
              ++ m, [], 1⟩
          else
            let w := smartBackoffWait attempt (jitters attempt)
              ("RateLimit/ConnectionError: " ++ m)
            let rest := queryGo oracle jitters (attempt + 1) r
            ⟨rest.result, w :: rest.sleeps, rest.attemptsMade + 1⟩
        else ⟨"Error: " ++ m, [], 1⟩
    | .raisedExc m =>
        if r = 0 then
          ⟨"Error: Max retries exceeded. Last error: " ++ m, [], 1⟩
        else
          let w := smartBackoffWait attempt (jitters attempt) m
          let rest := queryGo oracle jitters (attempt + 1) r
          ⟨rest.result, w :: rest.sleeps, rest.attemptsMade + 1⟩

/-- `ConsciousnessProbe._query`'s retry loop entered at attempt 0 with
`max_retries = 5`. -/
def consciousnessQuery (oracle : Nat → BenchResult) (jitters : Nat → ℚ) :
    QueryTrace :=
  queryGo oracle jitters 0 5

/-!
### `chat_server.py`: God-Mode events and actor memories

`StageManager.actor_memories` is a dict name → `MemoryBank`; the injected
event queue `_eventQueue` is FIFO and may hold a structured
`GodEventAction`, a targeted `{target, content}` dict, or a global string
(lines 505–526 and 277–302).
-/

/-- Actor memory registry (`self.actor_memories`). -/
abbrev Memories := List (String × MemoryBank)

/-- An item of the God-Mode injected-event queue. -/
inductive GodEvent where
  | godAction (announcement : Option String)
      (targetInstructions : List (String × String))
      (memoryUpdates : List (String × String))
  | targeted (target : String) (content : String)
  | globalStr (content : String)
  deriving Repr, DecidableEq

/-- `self.actor_memories[name].add(content)` for a present key (dict
update). -/
def memAdd (ms : Memories) (name content : String) : Memories :=
  ms.map fun p => if p.1 = name then (p.1, p.2.add content) else p

/-- `for mb in self.actor_memories.values(): mb.add(msg)`. -/
def memAddAll (ms : Memories) (content : String) : Memories :=
  ms.map fun p => (p.1, p.2.add content)

/-- Application of one dequeued God-Mode item to the memory registry
(`_apply_god_action`, lines 277–302, and the mid-scene handlers,
lines 509–526).  Target keys absent from the registry are skipped. -/
def applyGodEvent (ms : Memories) (e : GodEvent) : Memories :=
  match e with
  | .godAction announcement targetInstructions memoryUpdates =>
      let ms₁ := match announcement with
        | some a => memAddAll ms ("⚡ [神谕]: " ++ a)
        | none => ms
      let ms₂ := targetInstructions.foldl
        (fun acc p =>
          if (acc.lookup p.1).isSome then
            memAdd acc p.1 ("【神之指令 (立即执行)】: " ++ p.2)
          else acc) ms₁
      memoryUpdates.foldl
        (fun acc p =>
          if (acc.lookup p.1).isSome then
            memAdd acc p.1 ("【植入记忆】: " ++ p.2)
          else acc) ms₂
  | .targeted target content =>
      if (ms.lookup target).isSome then
        memAdd ms target ("【突发事件】: " ++ content)
      else ms
  | .globalStr content => memAddAll ms ("⚡ [突发指令]: " ++ content)

/-- Draining the whole queue, oldest item first (`while not
self._eventQueue.empty(): ...`, FIFO). -/
def drainQueue (q : List GodEvent) (ms : Memories) : Memories :=
  q.foldl applyGodEvent ms

/-!
### `chat_server.py`: the per-scene turn loop (lines 500–656)

One iteration of `while current_turn < max_turns and not scene_ended`.
The gateway call `crew_actor.perform` is driven by an oracle indexed by
the number of calls made so far.

The blackboard dialogue methods called inside the `try` block
(`remove_last_dialogue` line 608, `add_dialogue` line 644) do not exist on
`PerformanceBlackboard`, so in the source those statements raise
`AttributeError`, the `except` at line 651 catches it, and execution
resumes at `current_turn += 1` (line 655).  Consequently on a speak turn
the statements after the raising call (`m_bank.add`, the `is_finished`
check) never run; the embedding reproduces this control flow.
-/

/-- One entry of `scene_chat_history` (lines 638–643). -/
structure ChatMsg where
  name : String
  content : String
  action : String
  deriving Repr, DecidableEq

/-- The decision fields as extracted by the orchestrator
(`act_data.get(key, default)`, lines 566–570). -/
structure TurnData where
  content : String
  action : String
  finished : Bool
  willingness : WillVal
  thought : String
  deriving Repr, DecidableEq

/-- The `act_data.get` reads with their defaults (lines 566–570). -/
def extractActData (a : ActData) : TurnData :=
  { content := a.content.getD "...", action := a.action.getD "",
    finished := a.isFinished.getD false,
    willingness := a.willingness.getD (.intVal 5),
    thought := a.thought.getD "" }

/-- The willingness/pass decision policy (lines 578–582): pass iff content
strips to `[PASS]`, or the willingness is an `int` below 3 and `[PASS]`
occurs in the content, or both content and action strip to empty. -/
def isPass (t : TurnData) : Bool :=
  (pyStrip t.content == "[PASS]") ||
    ((match t.willingness with
      | .intVal w => decide (w < 3)
      | .nonInt => false) && containsStr t.content "[PASS]") ||
    (pyStrip t.content == "" && pyStrip t.action == "")

/-- The revoke test of line 607. -/
def hasRevokeMarker (t : TurnData) : Bool :=
  containsStr t.content "[撤回]" || containsStr t.content "[REVOKE]" ||
    containsStr t.action "[撤回]"

/-- Outcome of one gateway call `await asyncio.to_thread(crew_actor.perform,
context)` (line 564): a decision dict, or an exception caught at
line 651. -/
inductive TurnOutcome where
  | ok (a : ActData)
  | err
  deriving Repr, DecidableEq

/-- Per-scene configuration: the active actors (nonempty after the
fallbacks of lines 480–490), the event's `max_turns`, and the gateway
oracle. -/
structure SceneCfg where
  activeActors : List String
  maxTurns : Nat
  oracle : Nat → TurnOutcome

/-- The loop state of `_handle_event_step`, plus ghost observation fields:
`gatewayCalls` counts gateway calls, `contextLog` records the memory
string passed to each call, `speechLog` records the speaker of each
non-pass (speak) turn. -/
structure SceneState where
  currentTurn : Nat
  sceneEnded : Bool
  lastSpeakerIdx : Int
  consecutiveSilenceCount : Nat
  prevSpeakerName : Option String
  consecutiveSpeechCount : Nat
  queue : List GodEvent
  memories : Memories
  chatHistory : List ChatMsg
  gatewayCalls : Nat
  contextLog : List String
  speechLog : List String
  deriving Repr, DecidableEq

/-- Lookup of `self.actor_memories[char_name]`; for the configurations the
loop can reach the key is always present (active actors are filtered
through the registry at line 480), so the default is never used there. -/
def memBankOf (ms : Memories) (name : String) : MemoryBank :=
  (ms.lookup name).getD (MemoryBank.init name [])

/-- The body of one loop iteration after the event-queue drain: speaker
selection (lines 528–530), anti-monopoly skip (533–536), context assembly
(544–558), gateway call and decision policy (560–656). -/
def sceneTurn (cfg : SceneCfg) (s : SceneState) : SceneState :=
  let idx : Int := (s.lastSpeakerIdx + 1) % (cfg.activeActors.length : Int)
  let charName := cfg.activeActors.getD idx.toNat ""
  let s1 := { s with lastSpeakerIdx := idx }
  if s1.prevSpeakerName = some charName ∧ 2 ≤ s1.consecutiveSpeechCount then
    s1
  else
    let ctxMemories := (memBankOf s1.memories charName).get_recent 5
    let s2 := { s1 with contextLog := s1.contextLog ++ [ctxMemories] }
    match cfg.oracle s2.gatewayCalls with
    | .err =>
        { s2 with gatewayCalls := s2.gatewayCalls + 1,
                  currentTurn := s2.currentTurn + 1 }
    | .ok actData =>
        let t := extractActData actData
        let s3 := { s2 with gatewayCalls := s2.gatewayCalls + 1 }
        if isPass t then
          let sil := s3.consecutiveSilenceCount + 1
          if cfg.activeActors.length ≤ sil then
            { s3 with consecutiveSilenceCount := sil, sceneEnded := true }
          else { s3 with consecutiveSilenceCount := sil }
        else
          let s4 := { s3 with consecutiveSilenceCount := 0 }
          let s5 :=
            if s4.prevSpeakerName = some charName then
              { s4 with
                  consecutiveSpeechCount := s4.consecutiveSpeechCount + 1,
                  speechLog := s4.speechLog ++ [charName] }
            else
              { s4 with
                  prevSpeakerName := some charName,
                  consecutiveSpeechCount := 1,
                  speechLog := s4.speechLog ++ [charName] }
          if hasRevokeMarker t then
            -- `remove_last_dialogue` is undefined: AttributeError, caught.
            { s5 with currentTurn := s5.currentTurn + 1 }
          else if t.content ≠ "" ∨ t.action ≠ "" then
            -- history appended (line 638), then `add_dialogue` raises:
            -- `m_bank.add` and the `is_finished` check are skipped.
            { s5 with
                chatHistory :=
                  s5.chatHistory ++ [⟨charName, t.content, t.action⟩],
                currentTurn := s5.currentTurn + 1 }
          else if t.finished then
            { s5 with
                sceneEnded := true,
                currentTurn := s5.currentTurn + 1 }
          else { s5 with currentTurn := s5.currentTurn + 1 }

/-- One full iteration of the scene loop: guard (line 500), pause poll
(timing only, omitted), full FIFO drain of the injected-event queue
(lines 505–526), then the turn body. -/
def eventStepIter (cfg : SceneCfg) (s : SceneState) : SceneState :=
  if s.currentTurn < cfg.maxTurns ∧ s.sceneEnded = false then
    sceneTurn cfg { s with memories := drainQueue s.queue s.memories,
                           queue := [] }
  else s

/-- `fuel` iterations of the scene loop. -/
def runScene (cfg : SceneCfg) (s : SceneState) : Nat → SceneState
  | 0 => s
  | fuel + 1 => eventStepIter cfg (runScene cfg s fuel)

/-- The loop state on scene entry (lines 475–498), with the injected-event
queue and memory registry as they stand when the scene starts. -/
def initSceneState (q : List GodEvent) (ms : Memories) : SceneState :=
  { currentTurn := 0, sceneEnded := false, lastSpeakerIdx := -1,
    consecutiveSilenceCount := 0, prevSpeakerName := none,
    consecutiveSpeechCount := 0, queue := q, memories := ms,
    chatHistory := [], gatewayCalls := 0, contextLog := [], speechLog := [] }

/-!
### `chat_server.py`: `StageManager.initializePerformance` (lines 146–173)

The fields the claims are about; the LLM client and CrewActor registries
and the DB checkpoints are omitted (configuration objects and
fire-and-forget persistence, referenced by no claim).
-/

/-- `ActorConfig` (name, system prompt, initial memory string). -/
structure ActorCfg where
  name : String
  systemPrompt : String
  memory : String
  deriving Repr, DecidableEq

/-- `ScriptEvent`. -/
structure ScriptEventM where
  timeline : String
  event : String
  characters : String
  description : String
  location : String
  goal : String
  maxTurns : Nat
  deriving Repr, DecidableEq

/-- `InitRequest`. -/
structure InitReq where
  script : List ScriptEventM
  actors : List ActorCfg
  worldBible : List (String × String)
  stageType : String
  deriving Repr, DecidableEq

/-- The `StageManager` fields touched by `initialize` together with the
injected-event queue and the active scene chat history. -/
structure StageState where
  script : List ScriptEventM
  actors : List (String × ActorCfg)
  actorMemories : Memories
  currentIndex : Nat
  isPlaying : Bool
  blackboard : PerformanceBlackboard
  worldBible : List (String × String)
  stageType : String
  eventQueue : List GodEvent
  activeSceneChatHistory : List ChatMsg
  deriving Repr, DecidableEq

/-- Python dict assignment `d[k] = v` on an association list. -/
def dictInsert (ms : Memories) (k : String) (v : MemoryBank) : Memories :=
  if (ms.lookup k).isSome then
    ms.map fun p => if p.1 = k then (k, v) else p
  else ms ++ [(k, v)]

/-- `StageManager.initializePerformance` (lines 146–173): replaces script/actor
registry/world bible/stage type, rebuilds each configured actor's
`MemoryBank` (dict assignment per name), resets `current_index` to 0 and
`is_playing` to `False`, and calls `blackboard.clear()`.  It contains no
statement touching `_eventQueue` or `active_scene_chat_history`. -/
def StageManager.initializePerformance (s : StageState) (req : InitReq) : StageState :=
  { s with
    script := req.script,
    actors := req.actors.map fun a => (a.name, a),
    worldBible := req.worldBible,
    stageType := req.stageType,
    actorMemories := req.actors.foldl
      (fun ms a =>
        dictInsert ms a.name
          (MemoryBank.init a.name (if a.memory = "" then [] else [a.memory])))
      s.actorMemories,
    currentIndex := 0,
    isPlaying := false,
    blackboard := s.blackboard.clear }

/-!
### Derived notions and concrete scenarios used by the verification
-/

/-- The round-robin candidate the next iteration will select from state
`s` (line 529–530; the drain phase does not touch `lastSpeakerIdx`). -/
def nextCandidate (cfg : SceneCfg) (s : SceneState) : String :=
  cfg.activeActors.getD
    ((s.lastSpeakerIdx + 1) % (cfg.activeActors.length : Int)).toNat ""

/-- Length of the trailing run of `a` at the end of `l`. -/
def trailingRun (l : List String) (a : String) : Nat :=
  (l.reverse.takeWhile fun x => x == a).length

/-- `true` iff the list contains three consecutive equal entries. -/
def hasTriple : List String → Bool
  | a :: b :: c :: rest => (a == b && b == c) || hasTriple (b :: c :: rest)
  | _ => false

/-- Invariant tying the anti-monopoly counter to the ghost speech log:
the counter stays at most 2 and equals the trailing run of the previous
speaker, and no actor ever appears three times in a row in the log. -/
def SpeechInv (s : SceneState) : Prop :=
  s.consecutiveSpeechCount ≤ 2 ∧
    (s.prevSpeakerName = none → s.speechLog = []) ∧
    (∀ p, s.prevSpeakerName = some p →
      trailingRun s.speechLog p = s.consecutiveSpeechCount ∧
        1 ≤ s.consecutiveSpeechCount) ∧
    hasTriple s.speechLog = false

/-- A gateway oracle that always answers with a pass decision. -/
def allPass (cfg : SceneCfg) : Prop :=
  ∀ k, ∃ a, cfg.oracle k = .ok a ∧ isPass (extractActData a) = true

/-- A decision dict that passes (willingness 0, content `[PASS]`). -/
def passAD : ActData :=
  { thought := some "", willingness := some (.intVal 0),
    content := some "[PASS]", action := some "", isFinished := some false }

/-- A decision dict that speaks the given content (willingness 8). -/
def speakAD (c : String) : ActData :=
  { thought := some "t", willingness := some (.intVal 8), content := some c,
    action := some "", isFinished := some false }

/-- Scenario of the spec: three active actors, `max_turns = 9`, every
queried actor passes. -/
def threeActorPassCfg : SceneCfg :=
  { activeActors := ["A", "B", "C"], maxTurns := 9,
    oracle := fun _ => .ok passAD }

/-- Fresh memory registry for the three-actor scenario. -/
def threeActorMems : Memories :=
  [("A", MemoryBank.init "A" []), ("B", MemoryBank.init "B" []),
   ("C", MemoryBank.init "C" [])]

/-- Scenario: a single active actor who always wants to speak. -/
def singleActorCfg : SceneCfg :=
  { activeActors := ["Alice"], maxTurns := 30,
    oracle := fun _ => .ok (speakAD "Hello") }

/-- Fresh memory registry for the single-actor scenarios. -/
def singleActorMems : Memories :=
  [("Alice", MemoryBank.init "Alice" [])]

/-- Scenario: a targeted injection for Alice followed by five global
injections, all queued before Alice's next turn. -/
def injectionQueue : List GodEvent :=
  [.targeted "Alice" "SECRET-INSTR", .globalStr "g1", .globalStr "g2",
   .globalStr "g3", .globalStr "g4", .globalStr "g5"]

/-- Scene configuration for the injection scenarios. -/
def injectionCfg : SceneCfg :=
  { activeActors := ["Alice"], maxTurns := 5,
    oracle := fun _ => .ok (speakAD "hi") }

/-- A decision resubmitting content identical to a recent entry, with
full willingness. -/
def dupAD : ActData :=
  { thought := some "t", willingness := some (.intVal 10),
    content := some "你好", action := some "", isFinished := some false }

/-- Scene configuration for the duplicate-content scenario. -/
def dupCfg : SceneCfg :=
  { activeActors := ["Bob"], maxTurns := 5, oracle := fun _ => .ok dupAD }

/-- A scene state whose most recent history entry already carries the
content `dupAD` resubmits. -/
def dupState : SceneState :=
  { initSceneState [] [("Bob", MemoryBank.init "Bob" [])] with
      chatHistory := [⟨"Bob", "你好", ""⟩] }

/-- A stage-manager state mid-performance, with a pending injected event
and a non-empty scene chat history, used to exercise `initialize`. -/
def witnessStage : StageState :=
  { script := [], actors := [], actorMemories := [], currentIndex := 7,
    isPlaying := true,
    blackboard := { facts := [("老王是内鬼", "general")], lockedFacts := [] },
    worldBible := [], stageType := "聊天群聊",
    eventQueue := [.globalStr "pending"],
    activeSceneChatHistory := [⟨"Gaia", "hello", ""⟩] }

/-- A one-event, one-actor `InitRequest`. -/
def witnessInitReq : InitReq :=
  { script := [⟨"t1", "e1", "所有人", "d", "loc", "g", 30⟩],
    actors := [⟨"Alice", "sys", "mem0"⟩], worldBible := [],
    stageType := "聊天群聊" }

/-!
## Helper lemmas

Branch analyses of one scene-loop iteration, list lemmas for the ghost
speech log, and the invariants they support.  None of these is a claim
theorem.
-/

theorem sceneTurn_frame (cfg : SceneCfg) (s : SceneState) :
    (sceneTurn cfg s).memories = s.memories ∧
    (sceneTurn cfg s).queue = s.queue := by
  unfold sceneTurn
  dsimp only
  repeat' split
  all_goals exact ⟨rfl, rfl⟩

theorem sceneTurn_turn (cfg : SceneCfg) (s : SceneState) :
    (sceneTurn cfg s).currentTurn = s.currentTurn ∨
    (sceneTurn cfg s).currentTurn = s.currentTurn + 1 := by
  unfold sceneTurn
  dsimp only
  repeat' split
  all_goals first | exact Or.inl rfl | exact Or.inr rfl

theorem eventStepIter_not_guard (cfg : SceneCfg) (s : SceneState)
    (h : ¬(s.currentTurn < cfg.maxTurns ∧ s.sceneEnded = false)) :
    eventStepIter cfg s = s := by
  unfold eventStepIter
  rw [if_neg h]

theorem eventStepIter_ended (cfg : SceneCfg) (s : SceneState)
    (h : s.sceneEnded = true) : eventStepIter cfg s = s :=
  eventStepIter_not_guard cfg s (by simp [h])

theorem eventStepIter_turn_le (cfg : SceneCfg) (s : SceneState)
    (h : s.currentTurn ≤ cfg.maxTurns) :
    (eventStepIter cfg s).currentTurn ≤ cfg.maxTurns := by
  unfold eventStepIter
  split
  next hg =>
    rcases sceneTurn_turn cfg
        { s with memories := drainQueue s.queue s.memories, queue := [] } with
      h1 | h1 <;> rw [h1] <;> dsimp only <;> omega
  next => exact h

theorem eventStepIter_drain (cfg : SceneCfg) (s : SceneState)
    (hguard : s.currentTurn < cfg.maxTurns) (hend : s.sceneEnded = false) :
    (eventStepIter cfg s).queue = [] ∧
    (eventStepIter cfg s).memories = drainQueue s.queue s.memories := by
  unfold eventStepIter
  rw [if_pos ⟨hguard, hend⟩]
  have h := sceneTurn_frame cfg
    { s with memories := drainQueue s.queue s.memories, queue := [] }
  exact ⟨h.2, h.1⟩

theorem eventStepIter_skip (cfg : SceneCfg) (s : SceneState)
    (hguard : s.currentTurn < cfg.maxTurns) (hend : s.sceneEnded = false)
    (hprev : s.prevSpeakerName = some (nextCandidate cfg s))
    (hcnt : 2 ≤ s.consecutiveSpeechCount) :
    (eventStepIter cfg s).gatewayCalls = s.gatewayCalls ∧
    (eventStepIter cfg s).currentTurn = s.currentTurn ∧
    (eventStepIter cfg s).sceneEnded = s.sceneEnded ∧
    (eventStepIter cfg s).speechLog = s.speechLog ∧
    (eventStepIter cfg s).consecutiveSpeechCount = s.consecutiveSpeechCount ∧
    (eventStepIter cfg s).prevSpeakerName = s.prevSpeakerName ∧
    (eventStepIter cfg s).contextLog = s.contextLog ∧
    (eventStepIter cfg s).chatHistory = s.chatHistory := by
  unfold nextCandidate at hprev
  unfold eventStepIter
  rw [if_pos ⟨hguard, hend⟩]
  unfold sceneTurn
  dsimp only
  rw [if_pos ⟨hprev, hcnt⟩]
  exact ⟨rfl, rfl, rfl, rfl, rfl, rfl, rfl, rfl⟩

theorem eventStepIter_pass (cfg : SceneCfg) (s : SceneState) (a : ActData)
    (hguard : s.currentTurn < cfg.maxTurns) (hend : s.sceneEnded = false)
    (hprev : s.prevSpeakerName = none)
    (ha : cfg.oracle s.gatewayCalls = .ok a)
    (hp : isPass (extractActData a) = true) :
    (eventStepIter cfg s).currentTurn = s.currentTurn ∧
    (eventStepIter cfg s).gatewayCalls = s.gatewayCalls + 1 ∧
    (eventStepIter cfg s).consecutiveSilenceCount =
      s.consecutiveSilenceCount + 1 ∧
    (eventStepIter cfg s).prevSpeakerName = none ∧
    (eventStepIter cfg s).sceneEnded =
      decide (cfg.activeActors.length ≤ s.consecutiveSilenceCount + 1) := by
  unfold eventStepIter
  rw [if_pos ⟨hguard, hend⟩]
  unfold sceneTurn
  dsimp only
  rw [if_neg (by simp [hprev])]
  rw [ha]
  dsimp only
  rw [if_pos hp]
  by_cases hsil : cfg.activeActors.length ≤ s.consecutiveSilenceCount + 1
  · rw [if_pos hsil]
    exact ⟨rfl, rfl, rfl, hprev, (decide_eq_true hsil).symm⟩
  · rw [if_neg hsil]
    refine ⟨rfl, rfl, rfl, hprev, ?_⟩
    rw [decide_eq_false hsil]
    exact hend

theorem eventStepIter_speak (cfg : SceneCfg) (s : SceneState) (a : ActData)
    (hguard : s.currentTurn < cfg.maxTurns) (hend : s.sceneEnded = false)
    (hns : ¬(s.prevSpeakerName = some (nextCandidate cfg s) ∧
      2 ≤ s.consecutiveSpeechCount))
    (ha : cfg.oracle s.gatewayCalls = .ok a)
    (hp : isPass (extractActData a) = false)
    (hrev : hasRevokeMarker (extractActData a) = false)
    (hcontent : (extractActData a).content ≠ "" ∨
      (extractActData a).action ≠ "") :
    (eventStepIter cfg s).consecutiveSilenceCount = 0 ∧
    (eventStepIter cfg s).gatewayCalls = s.gatewayCalls + 1 ∧
    (eventStepIter cfg s).currentTurn = s.currentTurn + 1 ∧
    (eventStepIter cfg s).chatHistory = s.chatHistory ++
      [⟨nextCandidate cfg s, (extractActData a).content,
        (extractActData a).action⟩] ∧
    (eventStepIter cfg s).sceneEnded = s.sceneEnded := by
  unfold nextCandidate at hns ⊢
  unfold eventStepIter
  rw [if_pos ⟨hguard, hend⟩]
  unfold sceneTurn
  dsimp only
  rw [if_neg hns]
  rw [ha]
  dsimp only
  rw [if_neg (by simp [hp])]
  by_cases hsame : s.prevSpeakerName =
      some (cfg.activeActors.getD
        ((s.lastSpeakerIdx + 1) % (cfg.activeActors.length : Int)).toNat "")
  · simp only [if_pos hsame]
    rw [if_neg (by simp [hrev]), if_pos hcontent]
    exact ⟨rfl, rfl, rfl, rfl, rfl⟩
  · simp only [if_neg hsame]
    rw [if_neg (by simp [hrev]), if_pos hcontent]
    exact ⟨rfl, rfl, rfl, rfl, rfl⟩

theorem takeWhile_append_le (p : String → Bool) (u v : List String) :
    (u.takeWhile p).length ≤ ((u ++ v).takeWhile p).length := by
  induction u with
  | nil => simp
  | cons a u ih =>
    by_cases h : p a = true
    · simpa [List.takeWhile_cons, h] using ih
    · simp [List.takeWhile_cons, h]

theorem trailingRun_cons_le (x : String) (l : List String) (a : String) :
    trailingRun l a ≤ trailingRun (x :: l) a := by
  simpa [trailingRun] using
    takeWhile_append_le (fun y => y == a) l.reverse [x]

theorem trailingRun_append_same (l : List String) (a : String) :
    trailingRun (l ++ [a]) a = trailingRun l a + 1 := by
  simp [trailingRun, List.takeWhile_cons, Nat.add_comm]

theorem trailingRun_eq_zero_of_ne (l : List String) (p q : String)
    (hpq : q ≠ p) (hpos : 1 ≤ trailingRun l p) : trailingRun l q = 0 := by
  have h1 : 1 ≤ (l.reverse.takeWhile fun x => x == p).length := hpos
  cases hrev : l.reverse with
  | nil => rw [hrev] at h1; simp at h1
  | cons x t =>
    rw [hrev] at h1
    unfold trailingRun
    rw [hrev]
    rw [List.takeWhile_cons] at h1 ⊢
    by_cases hx : (x == p) = true
    · have hxp : x = p := by simpa using hx
      subst hxp
      have hq : (x == q) = false := by
        simp only [beq_eq_false_iff_ne, ne_eq]
        exact fun he => hpq he.symm
      simp [hq]
    · rw [Bool.not_eq_true] at hx
      simp [hx] at h1

theorem hasTriple_append (l : List String) (b : String)
    (h : hasTriple l = false) (hrun : trailingRun l b ≤ 1) :
    hasTriple (l ++ [b]) = false := by
  induction l with
  | nil => rfl
  | cons x l ih =>
    cases l with
    | nil => rfl
    | cons y t =>
      cases t with
      | nil =>
        simp only [List.cons_append, List.nil_append]
        simp only [hasTriple, Bool.or_eq_false_iff]
        refine ⟨?_, trivial⟩
        by_contra hc
        rw [Bool.not_eq_false, Bool.and_eq_true, beq_iff_eq, beq_iff_eq] at hc
        obtain ⟨hxy, hyb⟩ := hc
        subst hxy; subst hyb
        simp [trailingRun, List.takeWhile_cons] at hrun
      | cons z t' =>
        simp only [hasTriple, Bool.or_eq_false_iff] at h
        obtain ⟨h1, h2⟩ := h
        have hrun' : trailingRun (y :: z :: t') b ≤ 1 :=
          le_trans (trailingRun_cons_le x _ b) hrun
        have hrec := ih h2 hrun'
        simp only [List.cons_append] at hrec ⊢
        simp only [hasTriple, Bool.or_eq_false_iff]
        exact ⟨h1, hrec⟩

theorem sceneTurn_speech_cases (cfg : SceneCfg) (s : SceneState) :
    ((sceneTurn cfg s).prevSpeakerName = s.prevSpeakerName ∧
      (sceneTurn cfg s).consecutiveSpeechCount = s.consecutiveSpeechCount ∧
      (sceneTurn cfg s).speechLog = s.speechLog) ∨
    (∃ c, (s.prevSpeakerName = some c → s.consecutiveSpeechCount ≤ 1) ∧
      ((s.prevSpeakerName = some c ∧
         (sceneTurn cfg s).prevSpeakerName = some c ∧
         (sceneTurn cfg s).consecutiveSpeechCount =
           s.consecutiveSpeechCount + 1) ∨
        (s.prevSpeakerName ≠ some c ∧
         (sceneTurn cfg s).prevSpeakerName = some c ∧
         (sceneTurn cfg s).consecutiveSpeechCount = 1)) ∧
      (sceneTurn cfg s).speechLog = s.speechLog ++ [c]) := by
  unfold sceneTurn
  dsimp only
  split
  · exact Or.inl ⟨rfl, rfl, rfl⟩
  next hns =>
    split
    · exact Or.inl ⟨rfl, rfl, rfl⟩
    next a =>
      split
      · split
        · exact Or.inl ⟨rfl, rfl, rfl⟩
        · exact Or.inl ⟨rfl, rfl, rfl⟩
      · by_cases hsame : s.prevSpeakerName =
            some (cfg.activeActors.getD
              ((s.lastSpeakerIdx + 1) % (cfg.activeActors.length : Int)).toNat "")
        · have hle : s.consecutiveSpeechCount ≤ 1 := by
            by_contra hgt
            exact hns ⟨hsame, by omega⟩
          simp only [if_pos hsame]
          repeat' split
          all_goals
            exact Or.inr ⟨_, fun _ => hle, Or.inl ⟨hsame, hsame, rfl⟩, rfl⟩
        · simp only [if_neg hsame]
          repeat' split
          all_goals
            exact Or.inr ⟨_, fun hp => (hsame hp).elim,
              Or.inr ⟨hsame, rfl, rfl⟩, rfl⟩

theorem speechInv_sceneTurn (cfg : SceneCfg) (s : SceneState)
    (h : SpeechInv s) : SpeechInv (sceneTurn cfg s) := by
  obtain ⟨h1, h2, h3, h4⟩ := h
  rcases sceneTurn_speech_cases cfg s with ⟨e1, e2, e3⟩ | ⟨c, hcle, hca, hlog⟩
  · refine ⟨?_, ?_, ?_, ?_⟩ <;> simp only [e1, e2, e3]
    · exact h1
    · exact h2
    · exact h3
    · exact h4
  · rcases hca with ⟨hpv, hpv', hcount⟩ | ⟨hne, hpv', hcount⟩
    · have hle := hcle hpv
      have htr := (h3 c hpv).1
      refine ⟨?_, ?_, ?_, ?_⟩
      · rw [hcount]; omega
      · intro habs
        rw [hpv'] at habs
        cases habs
      · intro p hp
        rw [hpv'] at hp
        injection hp with hp
        subst hp
        constructor
        · rw [hlog, trailingRun_append_same, htr, hcount]
        · rw [hcount]; omega
      · rw [hlog]
        exact hasTriple_append _ _ h4 (by omega)
    · have htr0 : trailingRun s.speechLog c = 0 := by
        cases hsp : s.prevSpeakerName with
        | none => rw [h2 hsp]; rfl
        | some p =>
          have hpc : c ≠ p := by
            intro he
            exact hne (by rw [he, hsp])
          refine trailingRun_eq_zero_of_ne _ p c hpc ?_
          rw [(h3 p hsp).1]
          exact (h3 p hsp).2
      refine ⟨?_, ?_, ?_, ?_⟩
      · rw [hcount]; omega
      · intro habs
        rw [hpv'] at habs
        cases habs
      · intro p hp
        rw [hpv'] at hp
        injection hp with hp
        subst hp
        constructor
        · rw [hlog, trailingRun_append_same, htr0, hcount]
        · rw [hcount]
      · rw [hlog]
        exact hasTriple_append _ _ h4 (by omega)

theorem speechInv_eventStepIter (cfg : SceneCfg) (s : SceneState)
    (h : SpeechInv s) : SpeechInv (eventStepIter cfg s) := by
  unfold eventStepIter
  split
  · exact speechInv_sceneTurn cfg _ h
  · exact h

theorem speechInv_runScene (cfg : SceneCfg) (q : List GodEvent)
    (ms : Memories) (fuel : Nat) :
    SpeechInv (runScene cfg (initSceneState q ms) fuel) := by
  induction fuel with
  | zero =>
    refine ⟨by simp [runScene, initSceneState], fun _ => rfl,
      fun p hp => ?_, rfl⟩
    simp [runScene, initSceneState] at hp
  | succ n ih => exact speechInv_eventStepIter cfg _ ih



theorem runScene_turn_le (cfg : SceneCfg) (q : List GodEvent) (ms : Memories)
    (fuel : Nat) :
    (runScene cfg (initSceneState q ms) fuel).currentTurn ≤ cfg.maxTurns := by
  induction fuel with
  | zero => simp [runScene, initSceneState]
  | succ n ih => exact eventStepIter_turn_le cfg _ ih

theorem runScene_freeze (cfg : SceneCfg) (s0 : SceneState) (n : Nat)
    (h : (runScene cfg s0 n).sceneEnded = true) :
    ∀ k, runScene cfg s0 (n + k) = runScene cfg s0 n := by
  intro k
  induction k with
  | zero => rfl
  | succ m ih =>
    show eventStepIter cfg (runScene cfg s0 (n + m)) = _
    rw [ih]
    exact eventStepIter_ended cfg _ h

theorem coldFieldRun (cfg : SceneCfg) (q : List GodEvent) (ms : Memories)
    (hN : 0 < cfg.activeActors.length) (hmax : 0 < cfg.maxTurns)
    (hpass : allPass cfg) :
    ∀ i, i ≤ cfg.activeActors.length →
      (runScene cfg (initSceneState q ms) i).currentTurn = 0 ∧
      (runScene cfg (initSceneState q ms) i).gatewayCalls = i ∧
      (runScene cfg (initSceneState q ms) i).consecutiveSilenceCount = i ∧
      (runScene cfg (initSceneState q ms) i).prevSpeakerName = none ∧
      (runScene cfg (initSceneState q ms) i).sceneEnded =
        decide (cfg.activeActors.length ≤ i) := by
  intro i
  induction i with
  | zero =>
    intro _
    refine ⟨rfl, rfl, rfl, rfl, ?_⟩
    rw [decide_eq_false (by omega)]
    rfl
  | succ n ih =>
    intro hn1
    have hn : n ≤ cfg.activeActors.length := by omega
    obtain ⟨e0, e1, e2, e3, e4⟩ := ih hn
    have hend : (runScene cfg (initSceneState q ms) n).sceneEnded = false := by
      rw [e4]
      exact decide_eq_false (by omega)
    have hguard : (runScene cfg (initSceneState q ms) n).currentTurn <
        cfg.maxTurns := by rw [e0]; omega
    obtain ⟨a, ha, hpa⟩ := hpass n
    have hstep := eventStepIter_pass cfg (runScene cfg (initSceneState q ms) n)
      a hguard hend e3 (by rw [e1]; exact ha) hpa
    refine ⟨?_, ?_, ?_, ?_, ?_⟩
    · show (eventStepIter cfg (runScene cfg (initSceneState q ms) n)).currentTurn = 0
      rw [hstep.1, e0]
    · show (eventStepIter cfg (runScene cfg (initSceneState q ms) n)).gatewayCalls = n + 1
      rw [hstep.2.1, e1]
    · show (eventStepIter cfg
        (runScene cfg (initSceneState q ms) n)).consecutiveSilenceCount = n + 1
      rw [hstep.2.2.1, e2]
    · exact hstep.2.2.2.1
    · show (eventStepIter cfg (runScene cfg (initSceneState q ms) n)).sceneEnded = _
      rw [hstep.2.2.2.2, e2]



theorem scLoop_transient (attempts : Nat → SCOutcome) (jitters : Nat → ℚ)
    (h : ∀ k, attempts k = .rateLimitErr ∨ attempts k = .connErr) :
    ∀ fuel attempt,
      (scLoop attempts jitters attempt fuel).1 =
        .error "Max retries exceeded" := by
  intro fuel
  induction fuel with
  | zero => intro _; rfl
  | succ r ih =>
    intro attempt
    unfold scLoop
    rcases h attempt with ha | ha <;> rw [ha] <;> exact ih (attempt + 1)

theorem scLoop_success (attempts : Nat → SCOutcome) (jitters : Nat → ℚ)
    (t : String) (r attempt : Nat) (h0 : attempts attempt = .success t) :
    (scLoop attempts jitters attempt (r + 1)).1 = .ok t := by
  unfold scLoop
  rw [h0]

theorem queryGo_attempts_le (oracle : Nat → BenchResult)
    (jitters : Nat → ℚ) :
    ∀ fuel attempt, (queryGo oracle jitters attempt fuel).attemptsMade ≤ fuel := by
  intro fuel
  induction fuel with
  | zero => intro _; simp [queryGo]
  | succ r ih =>
    intro attempt
    unfold queryGo
    cases ho : oracle attempt with
    | ok c => simp
    | fail m =>
      dsimp only
      by_cases hr : rlClass m = true
      · rw [if_pos hr]
        by_cases h0 : r = 0
        · rw [if_pos h0]; simp
        · rw [if_neg h0]
          dsimp only
          have := ih (attempt + 1)
          omega
      · rw [if_neg hr]; simp
    | raisedExc m =>
      dsimp only
      by_cases h0 : r = 0
      · rw [if_pos h0]; simp
      · rw [if_neg h0]
        dsimp only
        have := ih (attempt + 1)
        omega

theorem queryGo_first_sleep (oracle : Nat → BenchResult) (jitters : Nat → ℚ)
    (attempt r : Nat) (msg : String)
    (h0 : oracle attempt = .raisedExc msg) (hr : r ≠ 0) :
    (queryGo oracle jitters attempt (r + 1)).sleeps.head? =
      some (smartBackoffWait attempt (jitters attempt) msg) := by
  unfold queryGo
  rw [h0]
  dsimp only
  rw [if_neg hr]
  rfl

theorem lookup_cons (a k : String) (v : MemoryBank)
    (l : List (String × MemoryBank)) :
    List.lookup a ((k, v) :: l) =
      if a == k then some v else List.lookup a l := by
  cases h : a == k <;> simp [List.lookup, h]

theorem lookup_memAdd (ms : Memories) (t m : String) :
    (memAdd ms t m).lookup t = (ms.lookup t).map fun mb => mb.add m := by
  induction ms with
  | nil => rfl
  | cons p rest ih =>
    obtain ⟨k, v⟩ := p
    simp only [memAdd, List.map_cons] at ih ⊢
    by_cases hk : k = t
    · subst hk
      rw [if_pos rfl, lookup_cons, lookup_cons]
      simp
    · rw [if_neg hk, lookup_cons, lookup_cons]
      have ht : (t == k) = false := by
        simp only [beq_eq_false_iff_ne, ne_eq]
        exact Ne.symm hk
      simp [ht, ih]

theorem mem_shortTerm_add (mb : MemoryBank) (m : String) :
    m ∈ (mb.add m).shortTerm := by
  unfold MemoryBank.add MemoryBank.add_short_term
  dsimp only
  split
  next hlen =>
    have h1 : 1 ≤ mb.shortTerm.length := by
      by_contra hc
      push_neg at hc
      interval_cases h : mb.shortTerm.length
      · simp [List.length_eq_zero.mp h] at hlen
    rw [List.drop_append_of_le_length h1]
    simp
  next => simp

theorem targeted_written (ms : Memories) (t c : String)
    (h : (ms.lookup t).isSome) :
    ∃ mb, (applyGodEvent ms (.targeted t c)).lookup t = some mb ∧
      ("【突发事件】: " ++ c) ∈ mb.shortTerm := by
  unfold applyGodEvent
  dsimp only
  rw [if_pos h]
  obtain ⟨mb0, hmb⟩ := Option.isSome_iff_exists.mp h
  rw [lookup_memAdd, hmb]
  exact ⟨_, rfl, mem_shortTerm_add mb0 _⟩

/-- The suggested-wait scan finds `5.2` in the scenario's rate-limit
message. -/
theorem scan_rl_msg :
    scanSuggestedWait "Rate limit: retry in 5.2s" = some (26 / 5) := by
  rw [scanSuggestedWait,
    show scanSuggestedParts "Rate limit: retry in 5.2s" = some (5, 2, 1) from
      by decide]
  simp only [Option.map_some', ratOfParts, Option.some.injEq]
  norm_num

/-!
## Claim theorems
-/

/-- C1: the claim says every orchestrator call to `add_dialogue`,
`get_recent_dialogue_struct` or `remove_last_dialogue` on a
`PerformanceBlackboard` is a defined operation.  The class defines only
the fact-ledger methods; Python attribute lookup fails (`AttributeError`)
on every dialogue-log method the orchestrator and the repository's own
test (`tests/test_blackboard_integration.py`) invoke.  This theorem
evaluates the attribute table of the class at those names: the code, not
the claim, is wrong. -/
theorem c1_blackboard_dialogue_undefined :
    pbLookupAttr "add_fact" = some "add_fact" ∧
    pbLookupAttr "get_all_facts" = some "get_all_facts" ∧
    pbLookupAttr "add_dialogue" = none ∧
    pbLookupAttr "get_recent_dialogue" = none ∧
    pbLookupAttr "get_recent_dialogue_struct" = none ∧
    pbLookupAttr "remove_last_dialogue" = none ∧
    orchestratorDialogueCalls.all
      (fun m => (pbLookupAttr m).isNone) = true := by
  decide

/-- C2: cold-field termination.  When every gateway call answers with a
pass and the scene has `N = activeActors.length > 0` actors, then before
the `N`-th pass the scene is not ended, after exactly the `N`-th pass
turn `scene_ended` is true, no further gateway call ever executes
(`runScene` is frozen from fuel `N` on), and `max_turns` is never
reached (the turn counter stays 0, as pass turns `continue` before
`current_turn += 1`). -/
theorem c2_cold_field_termination (cfg : SceneCfg) (q : List GodEvent)
    (ms : Memories) (hN : 0 < cfg.activeActors.length)
    (hmax : 0 < cfg.maxTurns) (hpass : allPass cfg) :
    (∀ i, i < cfg.activeActors.length →
      (runScene cfg (initSceneState q ms) i).sceneEnded = false ∧
      (runScene cfg (initSceneState q ms) i).gatewayCalls = i) ∧
    ((runScene cfg (initSceneState q ms)
        cfg.activeActors.length).sceneEnded = true ∧
      (runScene cfg (initSceneState q ms)
        cfg.activeActors.length).gatewayCalls = cfg.activeActors.length ∧
      (runScene cfg (initSceneState q ms)
        cfg.activeActors.length).currentTurn < cfg.maxTurns) ∧
    (∀ k, runScene cfg (initSceneState q ms) (cfg.activeActors.length + k) =
      runScene cfg (initSceneState q ms) cfg.activeActors.length) := by
  have hrun := coldFieldRun cfg q ms hN hmax hpass
  have hat := hrun cfg.activeActors.length (le_refl _)
  have hended : (runScene cfg (initSceneState q ms)
      cfg.activeActors.length).sceneEnded = true := by
    rw [hat.2.2.2.2]
    exact decide_eq_true (le_refl _)
  refine ⟨?_, ⟨hended, hat.2.1, ?_⟩, runScene_freeze cfg _ _ hended⟩
  · intro i hi
    have h := hrun i (le_of_lt hi)
    refine ⟨?_, h.2.1⟩
    rw [h.2.2.2.2]
    exact decide_eq_false (by omega)
  · rw [hat.1]
    exact hmax

/-- C2 witness: the spec's scenario — 3 active actors, `max_turns = 9`,
every queried actor passes — ends exactly after the 3rd pass turn and
before `max_turns`. -/
theorem c2_cold_field_termination_witness :
    (runScene threeActorPassCfg (initSceneState [] threeActorMems)
      2).sceneEnded = false ∧
    (runScene threeActorPassCfg (initSceneState [] threeActorMems)
      3).sceneEnded = true ∧
    (runScene threeActorPassCfg (initSceneState [] threeActorMems)
      3).gatewayCalls = 3 ∧
    (runScene threeActorPassCfg (initSceneState [] threeActorMems)
      9).gatewayCalls = 3 ∧
    (runScene threeActorPassCfg (initSceneState [] threeActorMems)
      3).currentTurn < 9 := by
  have h := c2_cold_field_termination threeActorPassCfg [] threeActorMems
    (by decide) (by decide) (fun k => ⟨passAD, rfl, by decide⟩)
  have h9 : runScene threeActorPassCfg (initSceneState [] threeActorMems) 9 =
      runScene threeActorPassCfg (initSceneState [] threeActorMems) 3 :=
    h.2.2 6
  refine ⟨(h.1 2 (by decide)).1, h.2.1.1, h.2.1.2.1, ?_, h.2.1.2.2⟩
  rw [h9]
  exact h.2.1.2.1

/-- C3: anti-monopoly.  In every reachable loop state the consecutive
speech counter is at most `cap = 2` and the ghost speech log never shows
the same actor three times in a row; moreover a round-robin candidate
equal to the previous speaker with `≥ 2` consecutive turns is skipped —
no gateway query, no speech, no turn-counter advance. -/
theorem c3_anti_monopoly (cfg : SceneCfg) (q : List GodEvent) (ms : Memories)
    (fuel : Nat) :
    (runScene cfg (initSceneState q ms) fuel).consecutiveSpeechCount ≤ 2 ∧
    hasTriple (runScene cfg (initSceneState q ms) fuel).speechLog = false ∧
    (∀ s : SceneState, s.currentTurn < cfg.maxTurns → s.sceneEnded = false →
      s.prevSpeakerName = some (nextCandidate cfg s) →
      2 ≤ s.consecutiveSpeechCount →
      (eventStepIter cfg s).gatewayCalls = s.gatewayCalls ∧
      (eventStepIter cfg s).speechLog = s.speechLog ∧
      (eventStepIter cfg s).currentTurn = s.currentTurn ∧
      (eventStepIter cfg s).consecutiveSpeechCount =
        s.consecutiveSpeechCount) := by
  obtain ⟨h1, _, _, h4⟩ := speechInv_runScene cfg q ms fuel
  refine ⟨h1, h4, fun s hg he hp hc => ?_⟩
  obtain ⟨e1, e2, _, e4, e5, _⟩ := eventStepIter_skip cfg s hg he hp hc
  exact ⟨e1, e4, e2, e5⟩

/-- C3 witness: single always-willing actor; after their two consecutive
speeches the skip fires without querying the gateway. -/
theorem c3_anti_monopoly_witness :
    (runScene singleActorCfg (initSceneState [] singleActorMems)
      10).consecutiveSpeechCount ≤ 2 ∧
    hasTriple (runScene singleActorCfg (initSceneState [] singleActorMems)
      10).speechLog = false ∧
    (eventStepIter singleActorCfg
        (runScene singleActorCfg (initSceneState [] singleActorMems)
          2)).gatewayCalls =
      (runScene singleActorCfg (initSceneState [] singleActorMems)
        2).gatewayCalls := by
  have h := c3_anti_monopoly singleActorCfg [] singleActorMems 10
  refine ⟨h.1, h.2.1, ?_⟩
  have hs := h.2.2
    (runScene singleActorCfg (initSceneState [] singleActorMems) 2)
    (by decide) (by decide) (by decide) (by decide)
  exact hs.1

/-- C4 counterexample: the claim says the gateway never raises past its
retry budget and the caller receives a usable value after all retries
are exhausted.  `LLMProvider.safe_completion` on a valid message list
whose five attempts all hit a rate limit falls through its loop and
raises `Exception("Max retries exceeded")` (modelled as `Except.error`,
which is a propagated exception, not a usable return value), refuting
the claim as stated. -/
theorem c4_gateway_raise_counterexample :
    (safe_completion [("user", "hi")] (fun _ => .rateLimitErr)
      (fun _ => 0)).1 = .error "Max retries exceeded" :=
  rfl

/-- C4 amended: `CrewActor.perform` — the gateway the scheduler actually
calls — never propagates an exception: any kickoff outcome yields a dict,
and on a non-JSON result or a raised exception it is the safe default
`{content: "[PASS]", willingness: 0}`.  `safe_completion` returns the
error string on an empty message context and the response on a successful
attempt, but after five transient (rate-limit/connection) failures it
raises `Max retries exceeded` rather than returning. -/
theorem c4_gateway_amended :
    (∀ raw, (CrewActor.perform (.rawOut raw)).content = some "[PASS]" ∧
      (CrewActor.perform (.rawOut raw)).willingness = some (.intVal 0)) ∧
    (∀ msg, (CrewActor.perform (.raiseErr msg)).content = some "[PASS]" ∧
      (CrewActor.perform (.raiseErr msg)).willingness = some (.intVal 0)) ∧
    (∀ a, CrewActor.perform (.pydanticOut a) = ActData.ofAction a) ∧
    (∀ messages attempts jitters,
      messages.filter (fun m => pyStrip m.2 ≠ "") = [] →
      (safe_completion messages attempts jitters).1 =
        .ok "[SYSTEM ERROR: Empty Message Context]") ∧
    (∀ messages attempts jitters t,
      messages.filter (fun m => pyStrip m.2 ≠ "") ≠ [] →
      attempts 0 = .success t →
      (safe_completion messages attempts jitters).1 = .ok t) ∧
    (∀ messages attempts jitters,
      messages.filter (fun m => pyStrip m.2 ≠ "") ≠ [] →
      (∀ k, attempts k = .rateLimitErr ∨ attempts k = .connErr) →
      (safe_completion messages attempts jitters).1 =
        .error "Max retries exceeded") := by
  refine ⟨fun raw => ⟨rfl, rfl⟩, fun msg => ⟨rfl, rfl⟩, fun a => rfl,
    ?_, ?_, ?_⟩
  · intro messages attempts jitters hempty
    unfold safe_completion
    rw [if_pos hempty]
  · intro messages attempts jitters t hnv h0
    unfold safe_completion
    rw [if_neg hnv]
    exact scLoop_success attempts jitters t 4 0 h0
  · intro messages attempts jitters hnv htrans
    unfold safe_completion
    rw [if_neg hnv]
    exact scLoop_transient attempts jitters htrans 5 0

/-- C4 witness for the amended statement, at concrete inputs. -/
theorem c4_gateway_amended_witness :
    ((CrewActor.perform (.rawOut "oops")).content = some "[PASS]") ∧
    ((CrewActor.perform (.raiseErr "boom")).willingness =
      some (.intVal 0)) ∧
    (safe_completion [("user", "  ")] (fun _ => .success "x")
      (fun _ => 0)).1 = .ok "[SYSTEM ERROR: Empty Message Context]" ∧
    (safe_completion [("user", "hi")] (fun _ => .success "ok")
      (fun _ => 0)).1 = .ok "ok" ∧
    (safe_completion [("user", "hi")] (fun _ => .connErr)
      (fun _ => 0)).1 = .error "Max retries exceeded" := by
  have h := c4_gateway_amended
  exact ⟨(h.1 "oops").1, (h.2.1 "boom").2,
    h.2.2.2.1 _ _ _ (by decide),
    h.2.2.2.2.1 _ _ _ "ok" (by decide) rfl,
    h.2.2.2.2.2 _ _ _ (by decide) (fun k => Or.inr rfl)⟩

/-- C5: retry policy of `ConsciousnessProbe._query`.  At most 5 attempts;
with no suggested wait and no quota marker the wait before retrying
attempt `a` is exactly `2·2^a + jitter`; a suggested wait `w` parsed from
`retry in Xs` / `retry after X` raises it to `max(2·2^a + jitter,
w + 1.5)`; a quota-class error without explicit timing floors it at 10 s;
the scenario message `retry in 5.2s` parses to `5.2` and forces the first
sleep to be at least `max(2·2^0 + jitter, 6.7)`. -/
theorem c5_retry_backoff_policy :
    (∀ oracle jitters,
      (consciousnessQuery oracle jitters).attemptsMade ≤ 5) ∧
    (∀ a j err, scanSuggestedWait err = none →
      isQuotaText (lowerStr err) = false →
      smartBackoffWait a j err = 2 * 2 ^ a + j) ∧
    (∀ a j err w, scanSuggestedWait err = some w →
      smartBackoffWait a j err = max (2 * 2 ^ a + j) (w + 3 / 2)) ∧
    (∀ a j err, scanSuggestedWait err = none →
      isQuotaText (lowerStr err) = true →
      smartBackoffWait a j err = max (2 * 2 ^ a + j) 10 ∧
        10 ≤ smartBackoffWait a j err) ∧
    (∀ a j, scWait a j .rateLimitErr = 2 * 2 ^ a + j) ∧
    (∀ oracle jitters msg, oracle 0 = .raisedExc msg →
      (consciousnessQuery oracle jitters).sleeps.head? =
        some (smartBackoffWait 0 (jitters 0) msg)) ∧
    (∀ oracle jitters msg, oracle 0 = .raisedExc msg →
      scanSuggestedWait msg = some (26 / 5) →
      ∃ w, (consciousnessQuery oracle jitters).sleeps.head? = some w ∧
        max (2 * 2 ^ 0 + jitters 0) (67 / 10) ≤ w) := by
  refine ⟨fun oracle jitters => queryGo_attempts_le oracle jitters 5 0,
    ?_, ?_, ?_, fun a j => rfl, ?_, ?_⟩
  · intro a j err h1 h2
    simp [smartBackoffWait, h1, h2]
  · intro a j err w h
    simp [smartBackoffWait, h]
  · intro a j err h1 h2
    constructor
    · simp [smartBackoffWait, h1, h2]
    · rw [show smartBackoffWait a j err = max (2 * 2 ^ a + j) 10 from
        by simp [smartBackoffWait, h1, h2]]
      exact le_max_right _ _
  · intro oracle jitters msg h0
    exact queryGo_first_sleep oracle jitters 0 4 msg h0 (by omega)
  · intro oracle jitters msg h0 hscan
    refine ⟨smartBackoffWait 0 (jitters 0) msg,
      queryGo_first_sleep oracle jitters 0 4 msg h0 (by omega), ?_⟩
    rw [show smartBackoffWait 0 (jitters 0) msg =
        max (2 * 2 ^ 0 + jitters 0) ((26 : ℚ) / 5 + 3 / 2) from
      by simp [smartBackoffWait, hscan]]
    have h67 : ((26 : ℚ) / 5 + 3 / 2) = 67 / 10 := by norm_num
    rw [h67]

/-- C5 witness: the scenario of the spec, with jitter `1/2`. -/
theorem c5_retry_backoff_policy_witness :
    (consciousnessQuery (fun _ => .raisedExc "Rate limit: retry in 5.2s")
      (fun _ => 1 / 2)).attemptsMade ≤ 5 ∧
    smartBackoffWait 3 (1 / 2) "connection reset by peer" =
      2 * 2 ^ 3 + 1 / 2 ∧
    smartBackoffWait 0 (1 / 2) "Rate limit: retry in 5.2s" =
      max (2 * 2 ^ 0 + 1 / 2) ((26 : ℚ) / 5 + 3 / 2) ∧
    (smartBackoffWait 1 (1 / 2) "429 quota exceeded" =
      max (2 * 2 ^ 1 + 1 / 2) 10 ∧
      10 ≤ smartBackoffWait 1 (1 / 2) "429 quota exceeded") ∧
    (∃ w, (consciousnessQuery
        (fun _ => .raisedExc "Rate limit: retry in 5.2s")
        (fun _ => 1 / 2)).sleeps.head? = some w ∧
      max (2 * 2 ^ 0 + (1 / 2 : ℚ)) (67 / 10) ≤ w) := by
  have h := c5_retry_backoff_policy
  have hnone : scanSuggestedWait "connection reset by peer" = none := by
    rw [scanSuggestedWait,
      show scanSuggestedParts "connection reset by peer" = none from
        by decide]
    rfl
  have hnone2 : scanSuggestedWait "429 quota exceeded" = none := by
    rw [scanSuggestedWait,
      show scanSuggestedParts "429 quota exceeded" = none from by decide]
    rfl
  refine ⟨h.1 _ _, h.2.1 3 (1 / 2) _ hnone (by decide),
    h.2.2.1 0 (1 / 2) _ ((26 : ℚ) / 5) scan_rl_msg,
    h.2.2.2.1 1 (1 / 2) _ hnone2 (by decide),
    h.2.2.2.2.2.2 _ _ _ rfl scan_rl_msg⟩

/-- C6 counterexample: resubmitting content identical to the most recent
entry, with willingness 10, is not downgraded to a pass — the decision
policy (lines 578–582) contains no duplicate check.  The handler treats
it as a speak turn (the silence counter resets) and appends a second
identical entry to the scene history the actors see. -/
theorem c6_duplicate_counterexample :
    dupState.chatHistory = [⟨"Bob", "你好", ""⟩] ∧
    (extractActData dupAD).content = "你好" ∧
    (extractActData dupAD).willingness = .intVal 10 ∧
    isPass (extractActData dupAD) = false ∧
    (eventStepIter dupCfg dupState).consecutiveSilenceCount = 0 ∧
    (eventStepIter dupCfg dupState).chatHistory =
      [⟨"Bob", "你好", ""⟩, ⟨"Bob", "你好", ""⟩] ∧
    (eventStepIter dupCfg dupState).currentTurn = 1 := by
  decide

/-- C6 amended: a turn is downgraded to a pass exactly when content
strips to `[PASS]`, or the willingness is an `int` below 3 with `[PASS]`
inside the content, or both content and action strip to empty; duplicate
content is not among these conditions, and any non-pass decision is
processed as a speak turn — silence reset, entry appended — regardless of
what the recent history contains.  (No entry ever reaches the blackboard
dialogue log itself, since `add_dialogue` does not exist; see C1.) -/
theorem c6_pass_policy_amended :
    (∀ t : TurnData, isPass t = true ↔
      (pyStrip t.content = "[PASS]" ∨
        (∃ w : Int, t.willingness = .intVal w ∧ w < 3 ∧
          containsStr t.content "[PASS]" = true) ∨
        (pyStrip t.content = "" ∧ pyStrip t.action = ""))) ∧
    (∀ cfg s a, s.currentTurn < cfg.maxTurns → s.sceneEnded = false →
      ¬(s.prevSpeakerName = some (nextCandidate cfg s) ∧
        2 ≤ s.consecutiveSpeechCount) →
      cfg.oracle s.gatewayCalls = .ok a →
      isPass (extractActData a) = false →
      hasRevokeMarker (extractActData a) = false →
      ((extractActData a).content ≠ "" ∨ (extractActData a).action ≠ "") →
      (eventStepIter cfg s).consecutiveSilenceCount = 0 ∧
      (eventStepIter cfg s).chatHistory = s.chatHistory ++
        [⟨nextCandidate cfg s, (extractActData a).content,
          (extractActData a).action⟩]) := by
  constructor
  · intro t
    cases hw : t.willingness with
    | intVal n => simp [isPass, hw, or_assoc]
    | nonInt => simp [isPass, hw]
  · intro cfg s a hg he hns ha hp hrev hcontent
    obtain ⟨e1, _, _, e4, _⟩ :=
      eventStepIter_speak cfg s a hg he hns ha hp hrev hcontent
    exact ⟨e1, e4⟩

/-- C6 witness for the amended statement: the pass characterization at a
pass decision, and the duplicate-content speak turn of the
counterexample state. -/
theorem c6_pass_policy_amended_witness :
    (isPass (extractActData passAD) = true ↔
      (pyStrip (extractActData passAD).content = "[PASS]" ∨
        (∃ w : Int,
          (extractActData passAD).willingness = .intVal w ∧ w < 3 ∧
          containsStr (extractActData passAD).content "[PASS]" = true) ∨
        (pyStrip (extractActData passAD).content = "" ∧
          pyStrip (extractActData passAD).action = ""))) ∧
    (eventStepIter dupCfg dupState).consecutiveSilenceCount = 0 ∧
    (eventStepIter dupCfg dupState).chatHistory = dupState.chatHistory ++
      [⟨nextCandidate dupCfg dupState, (extractActData dupAD).content,
        (extractActData dupAD).action⟩] := by
  have h := c6_pass_policy_amended
  refine ⟨h.1 (extractActData passAD), ?_⟩
  exact h.2 dupCfg dupState dupAD (by decide) (by decide) (by decide) rfl
    (by decide) (by decide) (by decide)

/-- C7: the per-scene turn counter never exceeds `max_turns`: from scene
entry, every run of the loop keeps `current_turn ≤ max_turns`; once the
bound is reached the loop guard stops everything (the iteration is the
identity); and one iteration advances the counter by at most one, only
under the guard `current_turn < max_turns`. -/
theorem c7_turn_counter_bounded (cfg : SceneCfg) (q : List GodEvent)
    (ms : Memories) (fuel : Nat) :
    (runScene cfg (initSceneState q ms) fuel).currentTurn ≤ cfg.maxTurns ∧
    (∀ s : SceneState, cfg.maxTurns ≤ s.currentTurn →
      eventStepIter cfg s = s) ∧
    (∀ s : SceneState, (eventStepIter cfg s).currentTurn = s.currentTurn ∨
      ((eventStepIter cfg s).currentTurn = s.currentTurn + 1 ∧
        s.currentTurn < cfg.maxTurns)) := by
  refine ⟨runScene_turn_le cfg q ms fuel, ?_, ?_⟩
  · intro s hs
    exact eventStepIter_not_guard cfg s (fun hc => by omega)
  · intro s
    unfold eventStepIter
    split
    next hg =>
      rcases sceneTurn_turn cfg
          { s with memories := drainQueue s.queue s.memories,
                   queue := [] } with h | h
      · exact Or.inl h
      · exact Or.inr ⟨h, hg.1⟩
    next => exact Or.inl rfl

/-- C7 witness at concrete scenes and states. -/
theorem c7_turn_counter_bounded_witness :
    (runScene singleActorCfg (initSceneState [] singleActorMems)
      50).currentTurn ≤ singleActorCfg.maxTurns ∧
    eventStepIter threeActorPassCfg
      { initSceneState [] threeActorMems with currentTurn := 9 } =
      { initSceneState [] threeActorMems with currentTurn := 9 } ∧
    ((eventStepIter threeActorPassCfg
        (initSceneState [] threeActorMems)).currentTurn =
        (initSceneState [] threeActorMems).currentTurn ∨
      ((eventStepIter threeActorPassCfg
        (initSceneState [] threeActorMems)).currentTurn =
        (initSceneState [] threeActorMems).currentTurn + 1 ∧
        (initSceneState [] threeActorMems).currentTurn <
          threeActorPassCfg.maxTurns)) := by
  have h1 := c7_turn_counter_bounded singleActorCfg [] singleActorMems 50
  have h2 := c7_turn_counter_bounded threeActorPassCfg [] threeActorMems 0
  exact ⟨h1.1, h2.2.1 _ (by decide), h2.2.2 _⟩

/-- C8 counterexample: a targeted instruction for Alice followed by five
global injections, all queued before Alice's next turn.  The drain writes
the instruction into Alice's memory, but the context assembled for that
very turn renders only the last five short-term entries
(`get_recent(5)`), so Alice's next turn completes without the instruction
ever being visible in her context — refuting the unconditional
"visible ... strictly before that target's next turn completes". -/
theorem c8_injection_visibility_counterexample :
    (eventStepIter injectionCfg
      (initSceneState injectionQueue singleActorMems)).gatewayCalls = 1 ∧
    (eventStepIter injectionCfg
      (initSceneState injectionQueue singleActorMems)).currentTurn = 1 ∧
    ((memBankOf (eventStepIter injectionCfg
        (initSceneState injectionQueue singleActorMems)).memories
      "Alice").shortTerm.contains "【突发事件】: SECRET-INSTR") = true ∧
    (eventStepIter injectionCfg
      (initSceneState injectionQueue singleActorMems)).contextLog.length =
      1 ∧
    ((eventStepIter injectionCfg
        (initSceneState injectionQueue singleActorMems)).contextLog.all
      fun c => !(containsStr c "SECRET-INSTR")) = true := by
  decide

/-- C8 amended: the scheduler drains the whole injected-event queue —
FIFO, one item fully applied at a time — before the next turn's gateway
call (after one guarded iteration the queue is empty and the memory
registry is exactly the drained one); a targeted injection is written
into its target's memory at drain time; and the instruction is visible in
the target's next assembled context when it is within the last-5
short-term window, e.g. when it is the only queued event. -/
theorem c8_injection_amended :
    (∀ cfg s, s.currentTurn < cfg.maxTurns → s.sceneEnded = false →
      (eventStepIter cfg s).queue = [] ∧
      (eventStepIter cfg s).memories = drainQueue s.queue s.memories) ∧
    (∀ ms t c, (List.lookup t ms).isSome = true →
      ∃ mb, (applyGodEvent ms (.targeted t c)).lookup t = some mb ∧
        ("【突发事件】: " ++ c) ∈ mb.shortTerm) ∧
    ((eventStepIter injectionCfg
        (initSceneState [.targeted "Alice" "SECRET-INSTR"]
          singleActorMems)).contextLog =
      ["- 【突发事件】: SECRET-INSTR"] ∧
      (eventStepIter injectionCfg
        (initSceneState [.targeted "Alice" "SECRET-INSTR"]
          singleActorMems)).gatewayCalls = 1) := by
  exact ⟨fun cfg s h1 h2 => eventStepIter_drain cfg s h1 h2,
    fun ms t c h => targeted_written ms t c h, by decide⟩

/-- C8 witness for the amended statement, at concrete inputs. -/
theorem c8_injection_amended_witness :
    (eventStepIter injectionCfg
      (initSceneState injectionQueue singleActorMems)).queue = [] ∧
    (eventStepIter injectionCfg
      (initSceneState injectionQueue singleActorMems)).memories =
      drainQueue injectionQueue singleActorMems ∧
    (∃ mb, (applyGodEvent singleActorMems
        (.targeted "Alice" "X")).lookup "Alice" = some mb ∧
      ("【突发事件】: " ++ "X") ∈ mb.shortTerm) := by
  have h := c8_injection_amended
  have h1 := h.1 injectionCfg (initSceneState injectionQueue singleActorMems)
    (by decide) rfl
  exact ⟨h1.1, h1.2, h.2.1 singleActorMems "Alice" "X" (by decide)⟩

/-- C9: single-actor livelock.  With exactly one active actor who has
just taken 2 consecutive speaking turns, the anti-monopoly skip fires on
every later iteration: the iteration is the identity on the state, so the
turn counter never advances, no termination condition is ever reached,
and the loop never executes another gateway call — it spins forever. -/
theorem c9_single_actor_livelock :
    ((runScene singleActorCfg (initSceneState [] singleActorMems)
        2).consecutiveSpeechCount = 2 ∧
      (runScene singleActorCfg (initSceneState [] singleActorMems)
        2).prevSpeakerName = some "Alice" ∧
      (runScene singleActorCfg (initSceneState [] singleActorMems)
        2).currentTurn = 2 ∧
      (runScene singleActorCfg (initSceneState [] singleActorMems)
        2).sceneEnded = false ∧
      (runScene singleActorCfg (initSceneState [] singleActorMems)
        2).gatewayCalls = 2 ∧
      (runScene singleActorCfg (initSceneState [] singleActorMems)
        2).currentTurn < singleActorCfg.maxTurns) ∧
    eventStepIter singleActorCfg
      (runScene singleActorCfg (initSceneState [] singleActorMems) 2) =
      runScene singleActorCfg (initSceneState [] singleActorMems) 2 ∧
    (∀ k, runScene singleActorCfg (initSceneState [] singleActorMems)
      (2 + k) =
      runScene singleActorCfg (initSceneState [] singleActorMems) 2) := by
  have hfix : eventStepIter singleActorCfg
      (runScene singleActorCfg (initSceneState [] singleActorMems) 2) =
      runScene singleActorCfg (initSceneState [] singleActorMems) 2 := by
    decide
  refine ⟨by decide, hfix, ?_⟩
  intro k
  induction k with
  | zero => rfl
  | succ m ih =>
    show eventStepIter singleActorCfg
      (runScene singleActorCfg (initSceneState [] singleActorMems)
        (2 + m)) = _
    rw [ih]
    exact hfix

/-- C10: `StageManager.initializePerformance` replaces the script and actor
registry, resets `current_index` to 0 and `is_playing` to `False`, and
clears the blackboard facts, while leaving the injected-event queue and
the active scene chat history untouched; events queued before
re-initialization survive it, and the next performance loop's first
guarded iteration applies exactly those surviving events (full drain). -/
theorem c10_initialize_frame (s : StageState) (req : InitReq) :
    (StageManager.initializePerformance s req).eventQueue = s.eventQueue ∧
    (StageManager.initializePerformance s req).activeSceneChatHistory =
      s.activeSceneChatHistory ∧
    (StageManager.initializePerformance s req).currentIndex = 0 ∧
    (StageManager.initializePerformance s req).isPlaying = false ∧
    (StageManager.initializePerformance s req).blackboard.facts = [] ∧
    (StageManager.initializePerformance s req).blackboard.lockedFacts = [] ∧
    (StageManager.initializePerformance s req).script = req.script ∧
    (StageManager.initializePerformance s req).actors =
      req.actors.map (fun a => (a.name, a)) ∧
    (∀ ms, drainQueue (StageManager.initializePerformance s req).eventQueue ms =
      drainQueue s.eventQueue ms) ∧
    (∀ cfg : SceneCfg, ∀ ms : Memories, 0 < cfg.maxTurns →
      (eventStepIter cfg
        (initSceneState (StageManager.initializePerformance s req).eventQueue
          ms)).memories = drainQueue s.eventQueue ms ∧
      (eventStepIter cfg
        (initSceneState (StageManager.initializePerformance s req).eventQueue
          ms)).queue = []) := by
  refine ⟨rfl, rfl, rfl, rfl, rfl, rfl, rfl, rfl, fun ms => rfl, ?_⟩
  intro cfg ms hmax
  have h := eventStepIter_drain cfg
    (initSceneState (StageManager.initializePerformance s req).eventQueue ms) hmax rfl
  exact ⟨h.2, h.1⟩

/-- C10 witness: a mid-performance stage state with a pending injection,
re-initialized with a fresh request. -/
theorem c10_initialize_frame_witness :
    (StageManager.initializePerformance witnessStage witnessInitReq).eventQueue =
      witnessStage.eventQueue ∧
    (StageManager.initializePerformance witnessStage
      witnessInitReq).activeSceneChatHistory =
      witnessStage.activeSceneChatHistory ∧
    (StageManager.initializePerformance witnessStage witnessInitReq).currentIndex =
      0 ∧
    (StageManager.initializePerformance witnessStage witnessInitReq).isPlaying =
      false ∧
    (StageManager.initializePerformance witnessStage
      witnessInitReq).blackboard.facts = [] ∧
    (eventStepIter injectionCfg
      (initSceneState (StageManager.initializePerformance witnessStage
        witnessInitReq).eventQueue singleActorMems)).memories =
      drainQueue witnessStage.eventQueue singleActorMems := by
  have h := c10_initialize_frame witnessStage witnessInitReq
  exact ⟨h.1, h.2.1, h.2.2.1, h.2.2.2.1, h.2.2.2.2.1,
    (h.2.2.2.2.2.2.2.2.2 injectionCfg singleActorMems (by decide)).1⟩

end Theater
